import Mathlib

/-!
Verification of the song-request bot core (KomThodsaporn/MiniProject).

The repository is a LINE song-request bot.  `src/index.js` contains several
variants of the application (a MongoDB-backed one, a pure in-memory one, two
Google-Sheets-backed ones and a SQLite-backed one), and
`src/unnamed/part_001` is a further Google-Sheets variant.  The postback
(confirmation) handler `handleEvent`, the confirmation registry
`activeConfirmations`, the in-memory queue `songQueue`, the played-today
machinery and the statistics endpoints are embedded below as pure Lean
functions, translated directly from the JavaScript source.

Conventions of the embedding:
- JavaScript strings are Lean `String`s; truthiness of a string is the test
  against the empty string; `undefined` is `Option.none`.
- The `activeConfirmations` object (userId -> confirmationId) is an
  association list where assignment replaces any previous binding.
- Each `await`-able external effect (profile lookup, uuid generation,
  persistence write, search result) is a parameter of the embedded function:
  the handlers are deterministic in those inputs.
- Replies sent through the LINE client are reified in a `Reply` value;
  the update_queue emit through io is reified as a `Bool` flag.
-/

namespace SongBot

/-- A queue entry as built in the postback branch of handleEvent
(src/index.js lines 156-163): fresh uuid, name, artist, album art,
the carried-over played-today flag and the requester display name. -/
structure Song where
  id : Nat
  name : String
  artist : String
  albumArt : String
  wasPlayedToday : Bool
  userName : String
deriving DecidableEq, Repr

/-- The parsed postback payload (src/index.js lines 139-140):
JSON.parse of event.postback.data, destructured into the confirmationId
and the remaining song data. -/
structure PostbackData where
  confirmationId : String
  name : String
  artist : String
  albumArt : String
  wasPlayedToday : Bool
deriving DecidableEq, Repr

/-- A reply action returned from handleEvent: either Promise.resolve(null)
or lineClient.replyMessage with a text message. -/
inductive Reply where
  | null
  | text (s : String)
deriving DecidableEq, Repr

/-- The activeConfirmations object (src/index.js line 67):
a single-slot map from userId to the outstanding confirmationId. -/
abbrev ConfMap := List (String × String)

/-- Reading activeConfirmations[userId]. -/
def lookupConf (m : ConfMap) (u : String) : Option String :=
  (m.find? (fun p => p.1 == u)).map (fun p => p.2)

/-- Assignment activeConfirmations[userId] = confirmationId
(src/index.js line 211): overwrites any previous binding for that user. -/
def setConf (m : ConfMap) (u v : String) : ConfMap :=
  (u, v) :: m.filter (fun p => p.1 != u)

/-- delete activeConfirmations[userId] (src/index.js lines 145 and 186). -/
def delConf (m : ConfMap) (u : String) : ConfMap :=
  m.filter (fun p => p.1 != u)

/-- The guard on src/index.js line 142:
`!activeConfirmations[userId] || activeConfirmations[userId] !== confirmationId`.
A missing binding is falsy, and so is a stored empty string. -/
def confCheckFails (stored : Option String) (presented : String) : Bool :=
  match stored with
  | none => true
  | some s => s == "" || s != presented

/-- The duplicate scan on src/index.js line 150:
`songQueue.some(song => song.name === songData.name && song.artist === songData.artist)`. -/
def isDuplicateInQueue (q : List Song) (n a : String) : Bool :=
  q.any (fun song => song.name == n && song.artist == a)

/-- In-memory application state of the in-memory variant
(src/index.js lines 319-323): songQueue, songHistory, playedToday and
activeConfirmations.  The MongoDB variant uses the same songQueue and
activeConfirmations fields and ignores the other two. -/
structure MemState where
  songQueue : List Song
  songHistory : List Song
  playedToday : List Song
  activeConfirmations : ConfMap
deriving DecidableEq, Repr

/-- Result of handling one postback event: the new state, the reply sent,
and whether the update_queue broadcast fired. -/
structure PostbackResult where
  state : MemState
  reply : Reply
  broadcast : Bool
deriving DecidableEq, Repr

/-- The postback branch of handleEvent (src/index.js lines 137-175; the
copy in the in-memory variant at lines 424-465 is logic-identical).
`payload` is the result of JSON.parse of event.postback.data: `none` means
the parse threw, in which case the catch block logs and the handler
resolves to null.  `newId` models the fresh uuid and `userName` the display
name returned by the awaited profile lookup. -/
def handlePostback (st : MemState) (userId : String) (payload : Option PostbackData)
    (newId : Nat) (userName : String) : PostbackResult :=
  match payload with
  | none => ⟨st, Reply.null, false⟩
  | some d =>
    if confCheckFails (lookupConf st.activeConfirmations userId) d.confirmationId then
      ⟨st, Reply.text "This confirmation has expired.", false⟩
    else
      let st1 : MemState :=
        { st with activeConfirmations := delConf st.activeConfirmations userId }
      if isDuplicateInQueue st1.songQueue d.name d.artist then
        ⟨st1, Reply.text ("\"" ++ d.name ++ "\" is already in the queue."), false⟩
      else
        let newSong : Song :=
          { id := newId, name := d.name, artist := d.artist, albumArt := d.albumArt,
            wasPlayedToday := d.wasPlayedToday, userName := userName }
        ⟨{ st1 with songQueue := st1.songQueue ++ [newSong] },
          Reply.text ("\"" ++ newSong.name ++ "\" by " ++ newSong.artist
            ++ " has been added to the queue!"),
          true⟩

/-- The in-memory hasBeenPlayedToday (src/index.js lines 345-347):
`playedToday.some(song => song.name === songName && song.artist === artistName)`. -/
def hasBeenPlayedToday (st : MemState) (songName artistName : String) : Bool :=
  st.playedToday.any (fun song => song.name == songName && song.artist == artistName)

/-- The in-memory song_played socket handler (src/index.js lines 553-565):
look the entry up by id; if present, push it onto songHistory and
playedToday, remove it from songQueue and broadcast.  The Bool records
whether the broadcast fired. -/
def songPlayedMem (st : MemState) (songId : Nat) : MemState × Bool :=
  match st.songQueue.find? (fun song => song.id == songId) with
  | none => (st, false)
  | some playedSong =>
    ({ st with
        songHistory := st.songHistory ++ [playedSong],
        playedToday := st.playedToday ++ [playedSong],
        songQueue := st.songQueue.filter (fun song => song.id != songId) },
      true)

/-- The delete_song socket handler (src/index.js lines 547-551). -/
def deleteSong (st : MemState) (songId : Nat) : MemState :=
  { st with songQueue := st.songQueue.filter (fun song => song.id != songId) }

/-- The body of the daily-reset timeout (src/index.js line 338):
`playedToday = []`. -/
def dailyResetClear (st : MemState) : MemState :=
  { st with playedToday := [] }

/-- One inbound operation on the in-memory state: a postback confirmation,
a song_played signal, a delete_song signal, or the midnight reset firing. -/
inductive MemOp where
  | postback (userId : String) (payload : Option PostbackData) (newId : Nat) (userName : String)
  | playedSignal (songId : Nat)
  | deleteSignal (songId : Nat)
  | resetSignal
deriving DecidableEq, Repr

/-- Step function over in-memory operations. -/
def memStep (st : MemState) : MemOp → MemState
  | MemOp.postback u p i n => (handlePostback st u p i n).state
  | MemOp.playedSignal i => (songPlayedMem st i).1
  | MemOp.deleteSignal i => deleteSong st i
  | MemOp.resetSignal => dailyResetClear st

/-- A queue entry as built in the postback branch of
src/unnamed/part_001 (lines 179-184): that older variant carries no
played-today flag and no requester name. -/
structure SongP1 where
  id : Nat
  name : String
  artist : String
  albumArt : String
deriving DecidableEq, Repr

/-- The parsed postback payload of src/unnamed/part_001 (lines 166-167). -/
structure P1Payload where
  confirmationId : String
  name : String
  artist : String
  albumArt : String
deriving DecidableEq, Repr

/-- State of the src/unnamed/part_001 variant (lines 55-59):
songQueue and activeConfirmations. -/
structure P1State where
  songQueue : List SongP1
  activeConfirmations : ConfMap
deriving DecidableEq, Repr

/-- The postback branch of handleEvent in src/unnamed/part_001
(lines 164-197).  Note: unlike src/index.js, this handler performs no
duplicate check before appending to songQueue. -/
def handlePostbackP1 (st : P1State) (userId : String) (payload : Option P1Payload)
    (newId : Nat) : P1State × Reply × Bool :=
  match payload with
  | none => (st, Reply.null, false)
  | some d =>
    if confCheckFails (lookupConf st.activeConfirmations userId) d.confirmationId then
      (st, Reply.text
        "This confirmation has expired or is invalid. Please search for the song again.",
        false)
    else
      let newSong : SongP1 :=
        { id := newId, name := d.name, artist := d.artist, albumArt := d.albumArt }
      (⟨st.songQueue ++ [newSong], delConf st.activeConfirmations userId⟩,
        Reply.text ("\"" ++ newSong.name ++ "\" by " ++ newSong.artist
          ++ " has been added to the queue!"),
        true)

/-- The token-issuing assignment of src/unnamed/part_001 (lines 256-257):
`activeConfirmations[userId] = confirmationId`. -/
def issueConfP1 (st : P1State) (userId confirmationId : String) : P1State :=
  { st with activeConfirmations := setConf st.activeConfirmations userId confirmationId }

/-- Concrete run against the part_001 handler: issue a token, confirm
"Shape of You", issue a second token, confirm the same (name, artist)
again.  Used to exhibit a duplicate pair in the pending queue. -/
def p1Scenario : P1State :=
  let st0 : P1State := ⟨[], []⟩
  let st1 := issueConfP1 st0 "user1" "token1"
  let st2 := (handlePostbackP1 st1 "user1"
    (some ⟨"token1", "Shape of You", "Ed Sheeran", "art"⟩) 1).1
  let st3 := issueConfP1 st2 "user1" "token2"
  (handlePostbackP1 st3 "user1"
    (some ⟨"token2", "Shape of You", "Ed Sheeran", "art"⟩) 2).1

/-- The pending queue holds no two entries with equal (name, artist). -/
def pairsNodup (q : List Song) : Prop :=
  (q.map (fun s => (s.name, s.artist))).Nodup

/-- Outcome of the awaited songLog.save() call in the MongoDB song_played
handler (src/index.js line 267). -/
inductive SaveResult where
  | ok
  | error
deriving DecidableEq, Repr

/-- Observable outcome of the MongoDB song_played handler: the queue
afterwards, whether update_queue was broadcast, and whether the history
document was persisted. -/
structure MongoPlayedResult where
  songQueue : List Song
  broadcast : Bool
  historyLogged : Bool
deriving DecidableEq, Repr

/-- The MongoDB song_played socket handler (src/index.js lines 256-277):
find the entry; if present, await songLog.save(); only after a successful
save are the queue filter and the broadcast executed — if save throws, the
catch block logs and the handler ends with the queue untouched and no
broadcast.  (The Google-Sheets handler in src/unnamed/part_001 lines
312-335 has the same shape around sheet.addRow.) -/
def songPlayedMongo (q : List Song) (songId : Nat) (save : SaveResult) : MongoPlayedResult :=
  match q.find? (fun song => song.id == songId) with
  | none => ⟨q, false, false⟩
  | some _ =>
    match save with
    | SaveResult.ok => ⟨q.filter (fun song => song.id != songId), true, true⟩
    | SaveResult.error => ⟨q, false, false⟩

/-- The count-accumulation step of the stats endpoints: one iteration of
the reduce on src/index.js lines 381-387 (`acc[key] = (acc[key] || 0) + 1`),
with the accumulator as an insertion-ordered association list, matching
Object.entries enumeration order for string keys. -/
def countsInsert (m : List (String × Nat)) (k : String) : List (String × Nat) :=
  if m.any (fun p => p.1 == k) then
    m.map (fun p => if p.1 == k then (p.1, p.2 + 1) else p)
  else m ++ [(k, 1)]

/-- getCounts of src/index.js lines 381-387: fold the key list into the
count map. -/
def getCounts (keys : List String) : List (String × Nat) :=
  keys.foldl countsInsert []

/-- Comparator of src/index.js line 397, `(a, b) => b.count - a.count`,
as the relation "count at least as large". -/
def byCountDesc (p q : String × Nat) : Prop := p.2 ≥ q.2

/-- Comparator of src/unnamed/part_001 lines 129 and 133,
`(a, b) => a.count - b.count`, as the relation "count at most as large". -/
def byCountAsc (p q : String × Nat) : Prop := p.2 ≤ q.2

instance : DecidableRel byCountDesc := fun p q => Nat.decLe q.2 p.2

instance : DecidableRel byCountAsc := fun p q => Nat.decLe p.2 q.2

instance : IsTotal (String × Nat) byCountDesc := ⟨fun a b => Nat.le_total b.2 a.2⟩

instance : IsTrans (String × Nat) byCountDesc := ⟨fun _ _ _ h1 h2 => Nat.le_trans h2 h1⟩

instance : IsTotal (String × Nat) byCountAsc := ⟨fun a b => Nat.le_total a.2 b.2⟩

instance : IsTrans (String × Nat) byCountAsc := ⟨fun _ _ _ h1 h2 => Nat.le_trans h1 h2⟩

/-- formatForResponse of src/index.js lines 394-399: Object.entries, a
stable sort by count descending (Array.prototype.sort is stable; modelled
by insertion sort, which computes the same permutation for a stable
comparator), then slice(0, 20). -/
def formatForResponse (counts : List (String × Nat)) : List (String × Nat) :=
  (List.insertionSort byCountDesc counts).take 20

/-- The songs half of the in-memory /api/stats handler
(src/index.js lines 390 and 402): counts keyed by the combined
"name - artist" string. -/
def statsSongs (songHistory : List Song) : List (String × Nat) :=
  formatForResponse (getCounts (songHistory.map (fun s => s.name ++ " - " ++ s.artist)))

/-- The artists half of the in-memory /api/stats handler
(src/index.js lines 391 and 403): each history entry contributes one key
per artist after splitting the display string on ", ". -/
def statsArtists (songHistory : List Song) : List (String × Nat) :=
  formatForResponse (getCounts (songHistory.flatMap (fun s => s.artist.splitOn ", ")))

/-- The songs half of the /api/stats handler in src/unnamed/part_001
(lines 104-135): rows are (Song Name, Artist) cells with the empty string
modelling a missing/falsy cell; counts are keyed by the song name alone,
sorted by `(a, b) => a.count - b.count` (ascending) with no slice. -/
def statsSongsP1 (rows : List (String × String)) : List (String × Nat) :=
  List.insertionSort byCountAsc
    (getCounts ((rows.map Prod.fst).filter (fun s => s != "")))

/-- The artists half of the /api/stats handler in src/unnamed/part_001
(lines 116-123 and 131-133): the Artist cell is split on ",", each part
trimmed, empty parts skipped; sorted ascending with no slice. -/
def statsArtistsP1 (rows : List (String × String)) : List (String × Nat) :=
  List.insertionSort byCountAsc
    (getCounts (((rows.map Prod.snd).filter (fun a => a != "")).flatMap
      (fun a => ((a.splitOn ",").map String.trim).filter (fun t => t != ""))))

/-- Milliseconds per day.  The scheduler model measures local wall-clock
time in milliseconds since the local epoch and treats all days as uniform
(the Date arithmetic of the host, including DST, is abstracted away). -/
def msPerDay : Nat := 86400000

/-- The `night` value of scheduleDailyReset (src/index.js lines 329-334):
new Date(year, month, date + 1, 0, 0, 0), i.e. the upcoming local
midnight, as milliseconds. -/
def nextMidnightMs (now : Nat) : Nat := (now / msPerDay + 1) * msPerDay

/-- msToMidnight of src/index.js line 335: night.getTime() - now.getTime(). -/
def msToMidnight (now : Nat) : Nat := nextMidnightMs now - now

/-- The setTimeout callback of scheduleDailyReset (src/index.js lines
337-341): clear playedToday and call scheduleDailyReset again, which
recomputes the delay from the current time (the fire time).  Returns the
new playedToday list and the absolute time of the next firing. -/
def dailyResetFire (fireTime : Nat) (_playedToday : List Song) : List Song × Nat :=
  ([], fireTime + msToMidnight fireTime)

/-- Result of the awaited Song.findOne query inside the MongoDB
hasBeenPlayedToday (src/index.js lines 52-56): the query either throws,
finds no document, or finds one. -/
inductive FindOneResult where
  | found (s : Song)
  | notFound
  | dbError
deriving DecidableEq, Repr

/-- The MongoDB hasBeenPlayedToday (src/index.js lines 45-63):
`!!song` on the query result; the catch block returns false. -/
def hasBeenPlayedTodayDb (r : FindOneResult) : Bool :=
  match r with
  | FindOneResult.found _ => true
  | FindOneResult.notFound => false
  | FindOneResult.dbError => false

/-- A Google-Sheet row as read by the Sheets hasBeenPlayedToday
(src/index.js lines 643-651): the Timestamp cell may be absent. -/
structure SheetRow where
  timestamp : Option String
  songName : String
  artist : String
deriving DecidableEq, Repr

/-- The Google-Sheets hasBeenPlayedToday (src/index.js lines 633-657).
`sheetRows` is `none` when the sheet is not initialized (line 634) and
`some (Except.error ())` when the awaited getRows() throws (line 653);
`toLocalDateString` abstracts rendering a timestamp string as a Bangkok
local date, and `todayString` is that rendering of the current time. -/
def hasBeenPlayedTodaySheet (sheetRows : Option (Except Unit (List SheetRow)))
    (toLocalDateString : String → String) (todayString : String)
    (songName artistName : String) : Bool :=
  match sheetRows with
  | none => false
  | some (Except.error _) => false
  | some (Except.ok rows) =>
    rows.any (fun row =>
      match row.timestamp with
      | none => false
      | some ts =>
        toLocalDateString ts == todayString
          && row.songName == songName && row.artist == artistName)

/-- The confirmation-card body text (src/index.js lines 205-208):
the artist line, with the played-today annotation appended only when the
wasPlayed flag is true. -/
def confirmationText (artist : String) (wasPlayed : Bool) : String :=
  "Artist: " ++ artist ++ (if wasPlayed then "\n(This song has been requested today)" else "")

/-- Concrete queue entry used in counterexamples and witnesses. -/
def sampleSong : Song :=
  { id := 7, name := "Shape of You", artist := "Ed Sheeran", albumArt := "art",
    wasPlayedToday := false, userName := "Alice" }

/-- The state at server start: empty queue, history, played-today list and
confirmation registry. -/
def emptyState : MemState := ⟨[], [], [], []⟩

/-! ## Helper lemmas about the confirmation registry and the handler -/

theorem lookupConf_setConf_self (m : ConfMap) (u v : String) :
    lookupConf (setConf m u v) u = some v := by
  simp [lookupConf, setConf]

theorem lookupConf_delConf_self (m : ConfMap) (u : String) :
    lookupConf (delConf m u) u = none := by
  have h : (delConf m u).find? (fun p => p.1 == u) = none := by
    rw [List.find?_eq_none]
    intro p hp
    have hne := (List.mem_filter.1 hp).2
    simpa using hne
  simp [lookupConf, h]

theorem confCheckFails_of_ne {stored : Option String} {c : String}
    (h : stored ≠ some c) : confCheckFails stored c = true := by
  cases stored with
  | none => rfl
  | some s =>
    have hs : s ≠ c := fun he => h (by rw [he])
    simp [confCheckFails, hs]

theorem confCheckFails_matched {c : String} (h : c ≠ "") :
    confCheckFails (some c) c = false := by
  simp [confCheckFails, h]

theorem handlePostback_expired (st : MemState) (u : String) (d : PostbackData)
    (i : Nat) (un : String)
    (h : confCheckFails (lookupConf st.activeConfirmations u) d.confirmationId = true) :
    handlePostback st u (some d) i un
      = ⟨st, Reply.text "This confirmation has expired.", false⟩ := by
  unfold handlePostback
  simp [h]

theorem handlePostback_duplicate (st : MemState) (u : String) (d : PostbackData)
    (i : Nat) (un : String)
    (hok : confCheckFails (lookupConf st.activeConfirmations u) d.confirmationId = false)
    (hdup : isDuplicateInQueue st.songQueue d.name d.artist = true) :
    handlePostback st u (some d) i un
      = ⟨{ st with activeConfirmations := delConf st.activeConfirmations u },
          Reply.text ("\"" ++ d.name ++ "\" is already in the queue."), false⟩ := by
  unfold handlePostback
  simp [hok, hdup]

theorem handlePostback_conf_of_success (st : MemState) (u : String) (d : PostbackData)
    (i : Nat) (un : String)
    (hok : confCheckFails (lookupConf st.activeConfirmations u) d.confirmationId = false) :
    (handlePostback st u (some d) i un).state.activeConfirmations
      = delConf st.activeConfirmations u := by
  unfold handlePostback
  simp only [hok, Bool.false_eq_true, if_false]
  split <;> rfl

theorem not_mem_pairs_of_not_duplicate (q : List Song) (n a : String)
    (h : isDuplicateInQueue q n a = false) :
    (n, a) ∉ q.map (fun s => (s.name, s.artist)) := by
  intro hm
  obtain ⟨s, hs, he⟩ := List.mem_map.1 hm
  have h1 : s.name = n := congrArg Prod.fst he
  have h2 : s.artist = a := congrArg Prod.snd he
  unfold isDuplicateInQueue at h
  rw [List.any_eq_false] at h
  exact h s hs (by simp [h1, h2])

/-! ## Claim theorems -/

/-- C1 counterexample: in the handler of src/unnamed/part_001, which has no
duplicate check, a concrete sequence of two confirm (postback) operations
for the same (name, artist) leaves the pending queue with two entries with
equal (name, artist), refuting the claimed invariant for that handler. -/
theorem C1_counterexample :
    (p1Scenario.songQueue.map (fun s => (s.name, s.artist)))
      = [("Shape of You", "Ed Sheeran"), ("Shape of You", "Ed Sheeran")]
    ∧ ¬ (p1Scenario.songQueue.map (fun s => (s.name, s.artist))).Nodup := by
  constructor
  · decide
  · decide

/-- C1 (amended): in the handler of src/index.js, which checks the pending
queue for an entry with equal (name, artist) before appending and rejects
the confirmation with the "already in queue" reply, every postback
operation preserves the no-duplicate-(name, artist) invariant of the
pending queue. -/
theorem C1_no_duplicate_pairs_index_handler (st : MemState) (u : String)
    (p : Option PostbackData) (i : Nat) (un : String)
    (h : pairsNodup st.songQueue) :
    pairsNodup (handlePostback st u p i un).state.songQueue := by
  unfold handlePostback
  match p with
  | none => exact h
  | some d =>
    dsimp only
    split
    · exact h
    · split
      · exact h
      · rename_i hdup
        unfold pairsNodup at h ⊢
        rw [List.map_append, List.map_cons, List.map_nil]
        refine List.Nodup.append h (List.nodup_singleton _) ?_
        intro x hx hx2
        rw [List.mem_singleton] at hx2
        subst hx2
        exact not_mem_pairs_of_not_duplicate _ _ _ (Bool.eq_false_iff.2 hdup) hx

theorem C1_no_duplicate_pairs_index_handler_witness :
    pairsNodup ((⟨[], [], [], [("u", "c")]⟩ : MemState).songQueue)
    ∧ pairsNodup (handlePostback ⟨[], [], [], [("u", "c")]⟩ "u"
        (some ⟨"c", "N", "A", "art", false⟩) 1 "Alice").state.songQueue :=
  ⟨by simp [pairsNodup],
    C1_no_duplicate_pairs_index_handler ⟨[], [], [], [("u", "c")]⟩ "u"
      (some ⟨"c", "N", "A", "art", false⟩) 1 "Alice" (by simp [pairsNodup])⟩

/-- C2: a redemption succeeds only when the presented confirmationId equals
the stored one (otherwise the handler replies "expired" and changes
nothing), and a successful redemption deletes the stored token, so a second
postback presenting the same token is answered with the "expired" reply and
leaves the state (in particular the queue) unchanged. -/
theorem C2_token_single_use :
    (∀ (st : MemState) (u : String) (d : PostbackData) (newId : Nat) (un : String),
        lookupConf st.activeConfirmations u ≠ some d.confirmationId →
        handlePostback st u (some d) newId un
          = ⟨st, Reply.text "This confirmation has expired.", false⟩)
    ∧ (∀ (st : MemState) (u : String) (d : PostbackData) (id1 id2 : Nat) (un1 un2 : String),
        lookupConf st.activeConfirmations u = some d.confirmationId →
        d.confirmationId ≠ "" →
        handlePostback (handlePostback st u (some d) id1 un1).state u (some d) id2 un2
          = ⟨(handlePostback st u (some d) id1 un1).state,
              Reply.text "This confirmation has expired.", false⟩) := by
  constructor
  · intro st u d newId un hne
    exact handlePostback_expired st u d newId un (confCheckFails_of_ne hne)
  · intro st u d id1 id2 un1 un2 hstored hne
    have hok : confCheckFails (lookupConf st.activeConfirmations u) d.confirmationId = false := by
      rw [hstored]; exact confCheckFails_matched hne
    have hconf := handlePostback_conf_of_success st u d id1 un1 hok
    refine handlePostback_expired _ u d id2 un2 ?_
    rw [hconf, lookupConf_delConf_self]
    rfl

theorem C2_token_single_use_witness :
    lookupConf (⟨[], [], [], [("u", "c")]⟩ : MemState).activeConfirmations "u"
        = some (⟨"c", "N", "A", "art", false⟩ : PostbackData).confirmationId
    ∧ (⟨"c", "N", "A", "art", false⟩ : PostbackData).confirmationId ≠ ""
    ∧ handlePostback
        (handlePostback ⟨[], [], [], [("u", "c")]⟩ "u"
          (some ⟨"c", "N", "A", "art", false⟩) 1 "Alice").state "u"
        (some ⟨"c", "N", "A", "art", false⟩) 2 "Alice"
      = ⟨(handlePostback ⟨[], [], [], [("u", "c")]⟩ "u"
            (some ⟨"c", "N", "A", "art", false⟩) 1 "Alice").state,
          Reply.text "This confirmation has expired.", false⟩ :=
  ⟨by decide, by decide,
    C2_token_single_use.2 ⟨[], [], [], [("u", "c")]⟩ "u"
      ⟨"c", "N", "A", "art", false⟩ 1 2 "Alice" "Alice" (by decide) (by decide)⟩

/-- C3: a valid confirmation for a (name, artist) pair already in the
pending queue is answered with the "already in queue" reply, the queue is
unchanged, no broadcast fires, and the token has been consumed: the stored
confirmation is gone and a repeat of the same postback is answered
"expired". -/
theorem C3_duplicate_reply_consumes_token (st : MemState) (u : String)
    (d : PostbackData) (i : Nat) (un : String)
    (hstored : lookupConf st.activeConfirmations u = some d.confirmationId)
    (hne : d.confirmationId ≠ "")
    (hdup : isDuplicateInQueue st.songQueue d.name d.artist = true) :
    (handlePostback st u (some d) i un).reply
        = Reply.text ("\"" ++ d.name ++ "\" is already in the queue.")
    ∧ (handlePostback st u (some d) i un).state.songQueue = st.songQueue
    ∧ (handlePostback st u (some d) i un).broadcast = false
    ∧ lookupConf (handlePostback st u (some d) i un).state.activeConfirmations u = none
    ∧ (∀ (i2 : Nat) (un2 : String),
        (handlePostback (handlePostback st u (some d) i un).state u (some d) i2 un2).reply
          = Reply.text "This confirmation has expired.") := by
  have hok : confCheckFails (lookupConf st.activeConfirmations u) d.confirmationId = false := by
    rw [hstored]; exact confCheckFails_matched hne
  have hd := handlePostback_duplicate st u d i un hok hdup
  have hexp : confCheckFails
      (lookupConf (delConf st.activeConfirmations u) u) d.confirmationId = true := by
    rw [lookupConf_delConf_self]
    rfl
  refine ⟨by rw [hd], by rw [hd], by rw [hd], ?_, ?_⟩
  · rw [hd]
    exact lookupConf_delConf_self _ u
  · intro i2 un2
    rw [hd]
    show (handlePostback { st with activeConfirmations := delConf st.activeConfirmations u }
        u (some d) i2 un2).reply = Reply.text "This confirmation has expired."
    rw [handlePostback_expired _ u d i2 un2 hexp]

theorem C3_duplicate_reply_consumes_token_witness :
    lookupConf (⟨[sampleSong], [], [], [("u", "c")]⟩ : MemState).activeConfirmations "u"
        = some (⟨"c", "Shape of You", "Ed Sheeran", "art", false⟩ : PostbackData).confirmationId
    ∧ (⟨"c", "Shape of You", "Ed Sheeran", "art", false⟩ : PostbackData).confirmationId ≠ ""
    ∧ isDuplicateInQueue (⟨[sampleSong], [], [], [("u", "c")]⟩ : MemState).songQueue
        "Shape of You" "Ed Sheeran" = true
    ∧ (handlePostback ⟨[sampleSong], [], [], [("u", "c")]⟩ "u"
        (some ⟨"c", "Shape of You", "Ed Sheeran", "art", false⟩) 1 "Alice").state.songQueue
      = [sampleSong] :=
  ⟨by decide, by decide, by decide,
    (C3_duplicate_reply_consumes_token ⟨[sampleSong], [], [], [("u", "c")]⟩ "u"
      ⟨"c", "Shape of You", "Ed Sheeran", "art", false⟩ 1 "Alice"
      (by decide) (by decide) (by decide)).2.1⟩

/-- C4: assigning a second confirmationId for the same user overwrites the
first in the single-slot activeConfirmations registry, so a postback
presenting the first token afterwards is answered with the "expired" reply
and nothing is queued. -/
theorem C4_token_overwrite (st : MemState) (u c1 c2 : String) (d : PostbackData)
    (i : Nat) (un : String)
    (hd : d.confirmationId = c1) (hne : c1 ≠ c2) :
    handlePostback
        { st with activeConfirmations := setConf (setConf st.activeConfirmations u c1) u c2 }
        u (some d) i un
      = ⟨{ st with activeConfirmations := setConf (setConf st.activeConfirmations u c1) u c2 },
          Reply.text "This confirmation has expired.", false⟩ := by
  refine handlePostback_expired _ u d i un (confCheckFails_of_ne ?_)
  show lookupConf (setConf (setConf st.activeConfirmations u c1) u c2) u ≠ some d.confirmationId
  rw [lookupConf_setConf_self, hd]
  intro he
  exact hne (Option.some.inj he).symm

theorem C4_token_overwrite_witness :
    (⟨"c1", "N", "A", "art", false⟩ : PostbackData).confirmationId = "c1"
    ∧ ("c1" : String) ≠ "c2"
    ∧ handlePostback
        { emptyState with activeConfirmations := setConf (setConf [] "u" "c1") "u" "c2" }
        "u" (some ⟨"c1", "N", "A", "art", false⟩) 1 "Alice"
      = ⟨{ emptyState with activeConfirmations := setConf (setConf [] "u" "c1") "u" "c2" },
          Reply.text "This confirmation has expired.", false⟩ :=
  ⟨rfl, by decide,
    C4_token_overwrite emptyState "u" "c1" "c2"
      ⟨"c1", "N", "A", "art", false⟩ 1 "Alice" rfl (by decide)⟩

/-- C10: a postback event whose payload fails to parse as JSON makes
handleEvent resolve to null: no reply is sent, no broadcast fires, and
neither the pending queue nor the confirmation registry is mutated — in
the handler of src/index.js and in the handler of src/unnamed/part_001. -/
theorem C10_parse_failure_no_mutation :
    (∀ (st : MemState) (u : String) (i : Nat) (un : String),
        handlePostback st u none i un = ⟨st, Reply.null, false⟩)
    ∧ (∀ (st : P1State) (u : String) (i : Nat),
        handlePostbackP1 st u none i = (st, Reply.null, false)) :=
  ⟨fun _ _ _ _ => rfl, fun _ _ _ => rfl⟩

/-! ## Played-today helper lemmas -/

theorem playedToday_handlePostback (st : MemState) (u : String) (p : Option PostbackData)
    (i : Nat) (un : String) :
    (handlePostback st u p i un).state.playedToday = st.playedToday := by
  unfold handlePostback
  match p with
  | none => rfl
  | some d =>
    dsimp only
    split
    · rfl
    · split <;> rfl

theorem hasBeenPlayedToday_memStep (st : MemState) (op : MemOp) (n a : String)
    (hop : op ≠ MemOp.resetSignal)
    (h : hasBeenPlayedToday st n a = true) :
    hasBeenPlayedToday (memStep st op) n a = true := by
  cases op with
  | postback u p i un =>
    unfold hasBeenPlayedToday at h ⊢
    show ((handlePostback st u p i un).state.playedToday.any _) = true
    rw [playedToday_handlePostback]
    exact h
  | playedSignal i =>
    show hasBeenPlayedToday (songPlayedMem st i).1 n a = true
    unfold songPlayedMem
    split
    · exact h
    · unfold hasBeenPlayedToday at h ⊢
      simp only [List.any_append, h, Bool.true_or]
  | deleteSignal i => exact h
  | resetSignal => exact absurd rfl hop

theorem hasBeenPlayedToday_run (st : MemState) (n a : String) (ops : List MemOp)
    (h : hasBeenPlayedToday st n a = true) (hops : MemOp.resetSignal ∉ ops) :
    hasBeenPlayedToday (ops.foldl memStep st) n a = true := by
  induction ops generalizing st with
  | nil => exact h
  | cons op rest ih =>
    rw [List.foldl_cons]
    have hop : op ≠ MemOp.resetSignal := by
      intro he
      exact hops (by rw [← he]; exact List.mem_cons_self op rest)
    exact ih (memStep st op) (hasBeenPlayedToday_memStep st op n a hop h)
      (fun hm => hops (List.mem_cons_of_mem op hm))

/-- C5: in the in-memory variant, hasBeenPlayedToday is false for a
(name, artist) pair with no matching entry in playedToday; after a
played-transition (song_played with an id found in the queue) it is true
for the pair of that entry; it stays true across any further postback, played
and delete operations that contain no midnight reset; and it is false for
every pair immediately after the midnight reset clears playedToday. -/
theorem C5_played_today_consistency :
    (∀ (st : MemState) (n a : String),
        (∀ s ∈ st.playedToday, ¬(s.name = n ∧ s.artist = a)) →
        hasBeenPlayedToday st n a = false)
    ∧ (∀ (st : MemState) (sid : Nat) (s : Song),
        st.songQueue.find? (fun song => song.id == sid) = some s →
        hasBeenPlayedToday (songPlayedMem st sid).1 s.name s.artist = true)
    ∧ (∀ (st : MemState) (n a : String) (ops : List MemOp),
        hasBeenPlayedToday st n a = true →
        MemOp.resetSignal ∉ ops →
        hasBeenPlayedToday (ops.foldl memStep st) n a = true)
    ∧ (∀ (st : MemState) (n a : String),
        hasBeenPlayedToday (memStep st MemOp.resetSignal) n a = false) := by
  refine ⟨?_, ?_, hasBeenPlayedToday_run, ?_⟩
  · intro st n a h
    unfold hasBeenPlayedToday
    rw [List.any_eq_false]
    intro s hs
    simpa using h s hs
  · intro st sid s hf
    unfold songPlayedMem
    rw [hf]
    unfold hasBeenPlayedToday
    simp [List.any_append]
  · intro st n a
    rfl

theorem C5_played_today_consistency_witness :
    hasBeenPlayedToday emptyState "Shape of You" "Ed Sheeran" = false
    ∧ hasBeenPlayedToday (songPlayedMem ⟨[sampleSong], [], [], []⟩ 7).1
        "Shape of You" "Ed Sheeran" = true
    ∧ hasBeenPlayedToday
        ([MemOp.deleteSignal 7].foldl memStep ⟨[], [], [sampleSong], []⟩)
        "Shape of You" "Ed Sheeran" = true
    ∧ hasBeenPlayedToday (memStep ⟨[], [], [sampleSong], []⟩ MemOp.resetSignal)
        "Shape of You" "Ed Sheeran" = false :=
  ⟨C5_played_today_consistency.1 emptyState "Shape of You" "Ed Sheeran" (by decide),
    C5_played_today_consistency.2.1 ⟨[sampleSong], [], [], []⟩ 7 sampleSong (by decide),
    C5_played_today_consistency.2.2.1 ⟨[], [], [sampleSong], []⟩ "Shape of You" "Ed Sheeran"
      [MemOp.deleteSignal 7] (by decide) (by decide),
    C5_played_today_consistency.2.2.2 ⟨[], [], [sampleSong], []⟩ "Shape of You" "Ed Sheeran"⟩

/-- C6 counterexample: in the MongoDB song_played handler, when the awaited
history write throws, the entry is NOT removed from the in-memory queue and
no queue snapshot is broadcast — the catch block only logs — refuting the
claim that the entry is still removed and the broadcast still happens. -/
theorem C6_counterexample :
    songPlayedMongo [sampleSong] 7 SaveResult.error = ⟨[sampleSong], false, false⟩
    ∧ sampleSong ∈ (songPlayedMongo [sampleSong] 7 SaveResult.error).songQueue
    ∧ ¬ (sampleSong ∉ (songPlayedMongo [sampleSong] 7 SaveResult.error).songQueue
          ∧ (songPlayedMongo [sampleSong] 7 SaveResult.error).broadcast = true) := by
  refine ⟨by decide, by decide, by decide⟩

/-- C6 (amended): in the MongoDB song_played handler a failure of the
history persistence write is logged and aborts the transition: the queue is
left unchanged and no broadcast fires; the entry is removed and the
snapshot broadcast only when the history write succeeds. -/
theorem C6_history_failure_blocks_removal :
    (∀ (q : List Song) (sid : Nat),
        songPlayedMongo q sid SaveResult.error = ⟨q, false, false⟩)
    ∧ (∀ (q : List Song) (sid : Nat) (s : Song),
        q.find? (fun song => song.id == sid) = some s →
        songPlayedMongo q sid SaveResult.ok
          = ⟨q.filter (fun song => song.id != sid), true, true⟩) := by
  constructor
  · intro q sid
    unfold songPlayedMongo
    split <;> rfl
  · intro q sid s hf
    unfold songPlayedMongo
    rw [hf]

theorem C6_history_failure_blocks_removal_witness :
    ([sampleSong].find? (fun song => song.id == 7) = some sampleSong)
    ∧ songPlayedMongo [sampleSong] 7 SaveResult.ok
        = ⟨[sampleSong].filter (fun song => song.id != 7), true, true⟩ :=
  ⟨by decide, C6_history_failure_blocks_removal.2 [sampleSong] 7 sampleSong (by decide)⟩

/-! ## Stats helper lemmas -/

theorem keys_countsInsert {m : List (String × Nat)} {k x : String}
    (hx : x ∈ (countsInsert m k).map Prod.fst) :
    x = k ∨ x ∈ m.map Prod.fst := by
  unfold countsInsert at hx
  split at hx
  · right
    rw [List.map_map] at hx
    obtain ⟨q, hq, hqe⟩ := List.mem_map.1 hx
    refine List.mem_map.2 ⟨q, hq, ?_⟩
    rw [← hqe]
    simp only [Function.comp]
    split <;> rfl
  · rw [List.map_append] at hx
    rcases List.mem_append.1 hx with hm | hm
    · exact Or.inr hm
    · left
      simpa using hm

theorem keys_getCounts_aux (keys : List String) (acc : List (String × Nat)) (x : String)
    (hx : x ∈ (keys.foldl countsInsert acc).map Prod.fst) :
    x ∈ acc.map Prod.fst ∨ x ∈ keys := by
  induction keys generalizing acc with
  | nil => exact Or.inl hx
  | cons k ks ih =>
    rw [List.foldl_cons] at hx
    rcases ih (countsInsert acc k) hx with hm | hm
    · rcases keys_countsInsert hm with he | hm2
      · exact Or.inr (by rw [he]; exact List.mem_cons_self k ks)
      · exact Or.inl hm2
    · exact Or.inr (List.mem_cons_of_mem k hm)

theorem keys_getCounts {keys : List String} {p : String × Nat}
    (hp : p ∈ getCounts keys) : p.1 ∈ keys := by
  have hx : p.1 ∈ (getCounts keys).map Prod.fst := List.mem_map_of_mem Prod.fst hp
  rcases keys_getCounts_aux keys [] p.1 hx with hm | hm
  · simp at hm
  · exact hm

theorem mem_formatForResponse {counts : List (String × Nat)} {p : String × Nat}
    (hp : p ∈ formatForResponse counts) : p ∈ counts := by
  have h1 : p ∈ List.insertionSort byCountDesc counts :=
    List.take_subset 20 _ hp
  exact (List.perm_insertionSort byCountDesc counts).mem_iff.1 h1

theorem sorted_formatForResponse (counts : List (String × Nat)) :
    (formatForResponse counts).Sorted byCountDesc :=
  (List.sorted_insertionSort byCountDesc counts).sublist (List.take_sublist 20 _)

/-- C7 counterexample: the /api/stats handler of src/unnamed/part_001 keys
songs by name alone (not "name - artist"), sorts by count ascending, and
applies no top-20 limit: with history rows "A" twice and "B" once it
returns [("B", 1), ("A", 2)], which is not sorted by count descending and
whose keys carry no artist. -/
theorem C7_counterexample :
    statsSongsP1 [("A", "X"), ("A", "X"), ("B", "Y")] = [("B", 1), ("A", 2)]
    ∧ ¬ (statsSongsP1 [("A", "X"), ("A", "X"), ("B", "Y")]).Sorted byCountDesc := by
  refine ⟨by decide, by decide⟩

/-- C7 (amended): the in-memory /api/stats handler of src/index.js returns
songs and artists each sorted by count descending (stable in iteration
order) and limited to the top 20, with song keys the combined
"name - artist" string and every artist key one of the parts of a history
artist display string of a history entry split on ", ". -/
theorem C7_stats_sorted_top20_index_handler (h : List Song) :
    (statsSongs h).Sorted byCountDesc
    ∧ (statsSongs h).length ≤ 20
    ∧ (∀ p ∈ statsSongs h, ∃ s ∈ h, p.1 = s.name ++ " - " ++ s.artist)
    ∧ (statsArtists h).Sorted byCountDesc
    ∧ (statsArtists h).length ≤ 20
    ∧ (∀ p ∈ statsArtists h, ∃ s ∈ h, p.1 ∈ s.artist.splitOn ", ") := by
  refine ⟨sorted_formatForResponse _, ?_, ?_, sorted_formatForResponse _, ?_, ?_⟩
  · show ((List.insertionSort byCountDesc _).take 20).length ≤ 20
    simp
  · intro p hp
    unfold statsSongs at hp
    have hk := keys_getCounts (mem_formatForResponse hp)
    obtain ⟨s, hs, he⟩ := List.mem_map.1 hk
    exact ⟨s, hs, he.symm⟩
  · show ((List.insertionSort byCountDesc _).take 20).length ≤ 20
    simp
  · intro p hp
    unfold statsArtists at hp
    have hk := keys_getCounts (mem_formatForResponse hp)
    rw [List.mem_flatMap] at hk
    obtain ⟨s, hs, hm⟩ := hk
    exact ⟨s, hs, hm⟩

theorem C7_stats_sorted_top20_index_handler_witness :
    (statsSongs [sampleSong]).Sorted byCountDesc
    ∧ (statsSongs [sampleSong]).length ≤ 20
    ∧ ("Shape of You - Ed Sheeran", 1) ∈ statsSongs [sampleSong]
    ∧ (∃ s ∈ [sampleSong],
        ("Shape of You - Ed Sheeran", (1 : Nat)).1 = s.name ++ " - " ++ s.artist) :=
  ⟨(C7_stats_sorted_top20_index_handler [sampleSong]).1,
    (C7_stats_sorted_top20_index_handler [sampleSong]).2.1,
    by decide,
    (C7_stats_sorted_top20_index_handler [sampleSong]).2.2.1
      ("Shape of You - Ed Sheeran", 1) (by decide)⟩

/-- C8: scheduleDailyReset computes the delay to the next local midnight
from the current time on every (re)scheduling: the delay is positive, at
most one day, lands exactly on a local midnight, equals a full 24 hours
only when (re)scheduled exactly at midnight, and each firing clears
playedToday and schedules the next firing at the midnight following the
fire time. -/
theorem C8_daily_reset_schedule :
    (∀ now : Nat, 0 < msToMidnight now ∧ msToMidnight now ≤ msPerDay)
    ∧ (∀ now : Nat, (now + msToMidnight now) % msPerDay = 0)
    ∧ (∀ now : Nat, msToMidnight now = msPerDay ↔ now % msPerDay = 0)
    ∧ (∀ (t : Nat) (pt : List Song),
        dailyResetFire t pt = ([], nextMidnightMs t)) := by
  refine ⟨?_, ?_, ?_, ?_⟩
  · intro now
    unfold msToMidnight nextMidnightMs msPerDay
    omega
  · intro now
    unfold msToMidnight nextMidnightMs msPerDay
    omega
  · intro now
    unfold msToMidnight nextMidnightMs msPerDay
    omega
  · intro t pt
    unfold dailyResetFire msToMidnight
    have ht : t ≤ nextMidnightMs t := by
      unfold nextMidnightMs msPerDay
      omega
    rw [Nat.add_sub_cancel' ht]

theorem C8_daily_reset_schedule_witness :
    0 < msToMidnight 5
    ∧ (5 + msToMidnight 5) % msPerDay = 0
    ∧ (msToMidnight 0 = msPerDay ↔ 0 % msPerDay = 0)
    ∧ dailyResetFire 5 [sampleSong] = ([], nextMidnightMs 5) :=
  ⟨(C8_daily_reset_schedule.1 5).1,
    C8_daily_reset_schedule.2.1 5,
    C8_daily_reset_schedule.2.2.1 0,
    C8_daily_reset_schedule.2.2.2 5 [sampleSong]⟩

/-- C9: when the persistence backend errors (the MongoDB findOne throws or
the Google Sheet getRows throws) or the sheet is not initialized,
hasBeenPlayedToday returns false, and hence the confirmation-card text
carries no played-today annotation: it is exactly the bare artist line. -/
theorem C9_backend_error_means_not_played :
    hasBeenPlayedTodayDb FindOneResult.dbError = false
    ∧ (∀ (f : String → String) (today n a : String),
        hasBeenPlayedTodaySheet none f today n a = false)
    ∧ (∀ (f : String → String) (today n a : String),
        hasBeenPlayedTodaySheet (some (Except.error ())) f today n a = false)
    ∧ (∀ artist : String,
        confirmationText artist (hasBeenPlayedTodayDb FindOneResult.dbError)
          = "Artist: " ++ artist) := by
  refine ⟨rfl, fun _ _ _ _ => rfl, fun _ _ _ _ => rfl, ?_⟩
  intro artist
  simp [confirmationText, hasBeenPlayedTodayDb]

end SongBot

